import Mathlib

/-!
Shallow embedding of the Swachh Scan backend (src/main.py together with the
document schemas in src/schemas.py): facilities, staff and citizen feedback
records live in a document store; feedback records move through the statuses
"open", "in_progress" and "resolved" via the assign / start / resolve
endpoints, and a stats endpoint aggregates a staff leaderboard.

Modelling conventions:
- datetime values are modelled as naturals (`Time`); the program only stores
  and compares them.  Each handler receives the instant `now` at which its
  `datetime.now(timezone.utc)` calls are evaluated.
- latitude/longitude floats are carried opaquely and never computed with, so
  their carrier is modelled as `Int`.
- MongoDB documents become Lean structures; `find_one` is `List.find?`,
  `update_one` with `$set` updates the first matching document,
  `find(query).sort("created_at", -1)` is a stable sort of the filtered list
  descending by creation time.
-/

/-- Time instants (values of datetime.now) modelled as naturals. -/
abbrev Time := Nat

/-- Errors raised by the endpoints: HTTP 404 (NotFound) and the 422/400
rating-range rejection (ValidationError). -/
inductive ApiError where
  | notFound
  | validationError
deriving Repr, DecidableEq

/-- Facility document, schemas.py class Facility. -/
structure Facility where
  code : String
  name : String
  address : Option String
  lat : Option Int
  lng : Option Int
  ward : Option String
  is_active : Bool
deriving Repr, DecidableEq

/-- Staff document, schemas.py class Staff, together with its generated
identity (the stringified ObjectId it is stored under). -/
structure StaffRec where
  id : String
  name : String
  phone : Option String
  employee_id : Option String
  ward : Option String
  is_active : Bool
deriving Repr, DecidableEq

/-- Feedback document, schemas.py class Feedback, together with its generated
identity and the created_at / updated_at stamps the storage layer maintains. -/
structure FeedbackRec where
  id : Nat
  facility_code : String
  rating : Int
  comment : Option String
  photo_url : Option String
  status : String
  assigned_to : Option String
  before_photo_url : Option String
  after_photo_url : Option String
  user_lat : Option Int
  user_lng : Option Int
  staff_start_lat : Option Int
  staff_start_lng : Option Int
  staff_complete_lat : Option Int
  staff_complete_lng : Option Int
  started_at : Option Time
  resolved_at : Option Time
  created_at : Time
  updated_at : Option Time
deriving Repr, DecidableEq

/-- The document store: the three collections used by main.py, plus the
counter from which fresh feedback identities are drawn.
Modelled from the spec: create_document (database.py, not under src/)
generates a unique identity for each inserted document and stamps its
creation time; here identities come from the `next_id` counter and
`created_at` is the instant of the inserting call. -/
structure Store where
  facilities : List Facility
  staffs : List StaffRec
  feedback : List FeedbackRec
  next_id : Nat
deriving Repr, DecidableEq

/-- Request body of POST /api/feedback (main.py class FeedbackCreate). -/
structure FeedbackCreate where
  facility_code : String
  rating : Int
  comment : Option String
  photo_url : Option String
  user_lat : Option Int
  user_lng : Option Int
deriving Repr, DecidableEq

/-- Request body of PATCH .../start (main.py class StartPayload). -/
structure StartPayload where
  before_photo_url : Option String
  staff_start_lat : Option Int
  staff_start_lng : Option Int
deriving Repr, DecidableEq

/-- Request body of PATCH .../resolve (main.py class ResolvePayload). -/
structure ResolvePayload where
  after_photo_url : Option String
  staff_complete_lat : Option Int
  staff_complete_lng : Option Int
deriving Repr, DecidableEq

/-- Field update semantics of the handlers' `$set` documents built from
`{k: v for k, v in payload.model_dump().items() if v is not None}`:
a non-null payload value replaces the stored one, a null payload value
leaves the stored one alone. -/
def optSet {α : Type} : Option α → Option α → Option α
  | some v, _ => some v
  | none, old => old

/-- Mongo update_one keyed on _id: rewrites the first document whose id
matches, returning the rewritten document and the new collection, or none
when no document matches (matched_count == 0). -/
def update_one (fid : Nat) (f : FeedbackRec → FeedbackRec) :
    List FeedbackRec → Option (FeedbackRec × List FeedbackRec)
  | [] => none
  | r :: rs =>
    if r.id == fid then some (f r, f r :: rs)
    else match update_one fid f rs with
      | none => none
      | some (u, rs2) => some (u, r :: rs2)

/-- The `$set` document of assign_feedback (main.py lines 190-193): staff id
taken as-is, status forced to in_progress, updated_at and started_at both
stamped with the current time (started_at unconditionally overwritten). -/
def applyAssign (now : Time) (staff_id : String) (r : FeedbackRec) : FeedbackRec :=
  { r with
    assigned_to := some staff_id
    status := "in_progress"
    updated_at := some now
    started_at := some now }

/-- The `$set` document of start_task (main.py lines 210-213): non-null
payload fields, status forced to in_progress, updated_at stamped.  The
source's `updates.setdefault("started_at", now)` acts on the update dict
built from the payload, and StartPayload has no started_at key, so the
default is inserted on every call and the stored started_at is always
overwritten with now. -/
def applyStart (now : Time) (p : StartPayload) (r : FeedbackRec) : FeedbackRec :=
  { r with
    before_photo_url := optSet p.before_photo_url r.before_photo_url
    staff_start_lat := optSet p.staff_start_lat r.staff_start_lat
    staff_start_lng := optSet p.staff_start_lng r.staff_start_lng
    status := "in_progress"
    updated_at := some now
    started_at := some now }

/-- The `$set` document of resolve_task (main.py lines 231-234): non-null
payload fields, status forced to resolved, updated_at and resolved_at
stamped with the current time (resolved_at unconditionally overwritten). -/
def applyResolve (now : Time) (p : ResolvePayload) (r : FeedbackRec) : FeedbackRec :=
  { r with
    after_photo_url := optSet p.after_photo_url r.after_photo_url
    staff_complete_lat := optSet p.staff_complete_lat r.staff_complete_lat
    staff_complete_lng := optSet p.staff_complete_lng r.staff_complete_lng
    status := "resolved"
    updated_at := some now
    resolved_at := some now }

/-- The fresh document inserted by submit_feedback (main.py lines 150-158):
payload fields copied, status "open", every lifecycle field unset.
Modelled from the spec: identity and created_at come from create_document
(database.py, not under src/), which generates a unique id and stamps the
creation time. -/
def newFeedback (now : Time) (fid : Nat) (p : FeedbackCreate) : FeedbackRec :=
  { id := fid
    facility_code := p.facility_code
    rating := p.rating
    comment := p.comment
    photo_url := p.photo_url
    status := "open"
    assigned_to := none
    before_photo_url := none
    after_photo_url := none
    user_lat := p.user_lat
    user_lng := p.user_lng
    staff_start_lat := none
    staff_start_lng := none
    staff_complete_lat := none
    staff_complete_lng := none
    started_at := none
    resolved_at := none
    created_at := now
    updated_at := none }

/-- POST /api/feedback (main.py submit_feedback, lines 143-161).  The
pydantic constraint `rating: int = Field(..., ge=1, le=5)` on FeedbackCreate
rejects the request before the handler body runs; then the handler looks the
facility up by code and inserts the new document.  The second component is
the store after the call (unchanged on failure). -/
def submit_feedback (now : Time) (p : FeedbackCreate) (s : Store) :
    Except ApiError FeedbackRec × Store :=
  if p.rating < 1 ∨ 5 < p.rating then (.error .validationError, s)
  else
    match s.facilities.find? (fun f => f.code == p.facility_code) with
    | none => (.error .notFound, s)
    | some _ =>
      (.ok (newFeedback now s.next_id p),
        { s with feedback := s.feedback ++ [newFeedback now s.next_id p],
                 next_id := s.next_id + 1 })

/-- Shared shape of the three PATCH handlers: update_one on _id with a `$set`
document, 404 when matched_count is 0, otherwise find_one of the same _id and
return the document.  Since no `$set` document touches _id, the find_one after
a successful update returns exactly the rewritten first-matching document,
which update_one already yields. -/
def patchFeedback (fid : Nat) (g : FeedbackRec → FeedbackRec) (s : Store) :
    Except ApiError FeedbackRec × Store :=
  match update_one fid g s.feedback with
  | none => (.error .notFound, s)
  | some (doc, fb2) => (.ok doc, { s with feedback := fb2 })

/-- PATCH /api/feedback/(id)/assign (main.py assign_feedback, lines 186-197). -/
def assign_feedback (now : Time) (fid : Nat) (staff_id : String) (s : Store) :
    Except ApiError FeedbackRec × Store :=
  patchFeedback fid (applyAssign now staff_id) s

/-- PATCH /api/feedback/(id)/start (main.py start_task, lines 206-218). -/
def start_task (now : Time) (fid : Nat) (p : StartPayload) (s : Store) :
    Except ApiError FeedbackRec × Store :=
  patchFeedback fid (applyStart now p) s

/-- PATCH /api/feedback/(id)/resolve (main.py resolve_task, lines 227-239). -/
def resolve_task (now : Time) (fid : Nat) (p : ResolvePayload) (s : Store) :
    Except ApiError FeedbackRec × Store :=
  patchFeedback fid (applyResolve now p) s

/-- Python truthiness of an Optional[str] query parameter: None and the
empty string are falsy, so `if status:` skips the constraint for both. -/
def strTruthy : Option String → Bool
  | none => false
  | some v => !(v == "")

/-- Python truthiness of the Optional[int] limit: None and 0 are falsy. -/
def intTruthy : Option Int → Bool
  | none => false
  | some n => !(n == 0)

/-- The Mongo query dict built by list_feedback (main.py lines 168-174):
each filter is added only when its parameter is truthy; the assigned_to
filter matches documents whose assigned_to equals the given string (a
document with assigned_to null does not match). -/
def matchesQuery (qstatus qfacility qassigned : Option String) (r : FeedbackRec) : Bool :=
  (if strTruthy qstatus then r.status == qstatus.getD "" else true) &&
  (if strTruthy qfacility then r.facility_code == qfacility.getD "" else true) &&
  (if strTruthy qassigned then r.assigned_to == some (qassigned.getD "") else true)

/-- GET /api/feedback (main.py list_feedback, lines 164-178): filter, sort
descending by created_at, and apply `.limit` only when the limit parameter
is truthy.  The route declares `limit: Optional[int] = 100`, so an absent
query parameter arrives as `some 100`.  A negative limit makes the server
return a single batch of that many documents, hence natAbs; no claim
exercises a negative limit. -/
def list_feedback (qstatus qfacility qassigned : Option String) (limit : Option Int)
    (s : Store) : List FeedbackRec :=
  let docs := (s.feedback.filter (matchesQuery qstatus qfacility qassigned)).mergeSort
      (fun a b => decide (b.created_at ≤ a.created_at))
  if intTruthy limit then docs.take (limit.getD 0).natAbs else docs

/-- One row of the stats leaderboard (main.py lines 259-264). -/
structure LeaderEntry where
  staff_id : String
  resolved_count : Nat
  staff_name : Option String
deriving Repr, DecidableEq

/-- The `$match` stage of the leaderboard pipeline (main.py line 254):
status resolved and assigned_to not null. -/
def resolvedAssignedFilter (r : FeedbackRec) : Bool :=
  r.status == "resolved" && r.assigned_to.isSome

/-- The distinct group keys produced by the `$group` stage: the distinct
assigned_to values among the matched documents. -/
def leaderboardKeys (s : Store) : List String :=
  ((s.feedback.filter resolvedAssignedFilter).filterMap (fun r => r.assigned_to)).dedup

/-- The `$group` stage output: one pair per distinct assignee among the
matched documents, carrying how many matched documents it groups. -/
def leaderboardGroups (s : Store) : List (String × Nat) :=
  (leaderboardKeys s).map
    (fun k => (k, ((s.feedback.filter resolvedAssignedFilter).filter
        (fun r => r.assigned_to == some k)).length))

/-- The `$sort` stage: groups ordered descending by count.  Mongo fixes
neither the group output order nor the order among equal counts; the model
uses distinct-key order and a stable sort. -/
def leaderboardSorted (s : Store) : List (String × Nat) :=
  (leaderboardGroups s).mergeSort (fun a b => decide (b.2 ≤ a.2))

/-- GET /api/stats leaderboard (main.py stats, lines 252-264): match
resolved documents with a non-null assignee, group by assignee with a count,
sort descending by count, keep the top 10 (`$limit`), then attach the staff
name by looking the assignee id up in the staff collection; a missing staff
document leaves the name null but keeps the row.  An assignee string that is
not a valid ObjectId can never equal a stored staff identity, so the
source's ObjectId.is_valid guard is absorbed by lookup failure. -/
def leaderboard (s : Store) : List LeaderEntry :=
  ((leaderboardSorted s).take 10).map
    (fun g =>
      { staff_id := g.1
        resolved_count := g.2
        staff_name := (s.staffs.find? (fun st => st.id == g.1)).map (fun st => st.name) })

/-- Counts block of GET /api/stats (main.py lines 247-250). -/
def statsCounts (s : Store) : Nat × Nat × Nat × Nat :=
  (s.feedback.length,
   (s.feedback.filter (fun r => r.status == "open")).length,
   (s.feedback.filter (fun r => r.status == "in_progress")).length,
   (s.feedback.filter (fun r => r.status == "resolved")).length)

/-! Concrete fixtures used by counterexamples and witnesses. -/

/-- A concrete facility for concrete runs. -/
def facilityF : Facility :=
  { code := "F1", name := "Block A", address := none, lat := none, lng := none,
    ward := none, is_active := true }

/-- A concrete store holding one facility, no staff, no feedback. -/
def baseStore : Store :=
  { facilities := [facilityF], staffs := [], feedback := [], next_id := 0 }

/-- A concrete feedback record with the given identity and status, every
optional field unset, created at instant 0. -/
def mkRec (i : Nat) (st : String) : FeedbackRec :=
  { id := i, facility_code := "F1", rating := 3, comment := none, photo_url := none,
    status := st, assigned_to := none, before_photo_url := none, after_photo_url := none,
    user_lat := none, user_lng := none, staff_start_lat := none, staff_start_lng := none,
    staff_complete_lat := none, staff_complete_lng := none, started_at := none,
    resolved_at := none, created_at := 0, updated_at := none }

/-- The Submit payload of the concrete C1 run. -/
def c1Payload : FeedbackCreate :=
  { facility_code := "F1", rating := 3, comment := none, photo_url := none,
    user_lat := none, user_lng := none }

/-- Concrete C1 run: store after Submit at instant 0. -/
def c1AfterSubmit : Store := (submit_feedback 0 c1Payload baseStore).2

/-- Concrete C1 run: store after Resolve of record 0 at instant 1. -/
def c1AfterResolve : Store := (resolve_task 1 0 ⟨none, none, none⟩ c1AfterSubmit).2

/-- Concrete C1 run: store after Assign of record 0 at instant 2. -/
def c1AfterAssign : Store := (assign_feedback 2 0 "staffA" c1AfterResolve).2

/-- Concrete store for the C9 witness: staff Asha (id "A"); two resolved
records assigned to "A", one resolved assigned to the missing staff "B",
one resolved but unassigned, one open. -/
def c9Store : Store :=
  { facilities := [facilityF]
    staffs := [{ id := "A", name := "Asha", phone := none, employee_id := none,
                 ward := none, is_active := true }]
    feedback :=
      [{ mkRec 0 "resolved" with assigned_to := some "A" },
       { mkRec 1 "resolved" with assigned_to := some "A" },
       { mkRec 2 "resolved" with assigned_to := some "B" },
       mkRec 3 "resolved",
       mkRec 4 "open"]
    next_id := 5 }

/-! Lemma layer: how update_one relates to find_one. -/

theorem update_one_eq_none {fid : Nat} {f : FeedbackRec → FeedbackRec} {l : List FeedbackRec} :
    update_one fid f l = none ↔ l.find? (fun x => x.id == fid) = none := by
  induction l with
  | nil => simp [update_one]
  | cons a as ih =>
    by_cases ha : (a.id == fid) = true
    · simp [update_one, ha, List.find?_cons_of_pos]
    · rw [List.find?_cons_of_neg _ (by simpa using ha), ← ih, update_one, if_neg ha]
      cases h : update_one fid f as with
      | none => simp
      | some p => simp

theorem update_one_of_find? {fid : Nat} {f : FeedbackRec → FeedbackRec} {l : List FeedbackRec}
    {r : FeedbackRec} (h : l.find? (fun x => x.id == fid) = some r) :
    ∃ l2, update_one fid f l = some (f r, l2) := by
  induction l with
  | nil => simp at h
  | cons a as ih =>
    cases ha : a.id == fid with
    | true =>
      have har : a = r := by simpa [List.find?_cons, ha] using h
      subst har
      exact ⟨f a :: as, by simp [update_one, ha]⟩
    | false =>
      simp only [List.find?_cons, ha] at h
      obtain ⟨l2, hl2⟩ := ih h
      exact ⟨a :: l2, by simp [update_one, ha, hl2]⟩

theorem update_one_decomp {fid : Nat} {f : FeedbackRec → FeedbackRec} {l : List FeedbackRec}
    {u : FeedbackRec} {l2 : List FeedbackRec} (h : update_one fid f l = some (u, l2)) :
    ∃ pre r post, l = pre ++ r :: post ∧ l2 = pre ++ f r :: post ∧ u = f r ∧
      (r.id == fid) = true ∧ ∀ x ∈ pre, (x.id == fid) = false := by
  induction l generalizing u l2 with
  | nil => simp [update_one] at h
  | cons a as ih =>
    rw [update_one] at h
    by_cases ha : (a.id == fid) = true
    · rw [if_pos ha] at h
      obtain ⟨h1, h2⟩ : f a = u ∧ f a :: as = l2 := by
        constructor <;> [exact congrArg Prod.fst (Option.some.inj h);
          exact congrArg Prod.snd (Option.some.inj h)]
      exact ⟨[], a, as, rfl, by simp [h2], h1.symm, ha, by simp⟩
    · rw [if_neg ha] at h
      cases hrec : update_one fid f as with
      | none => rw [hrec] at h; simp at h
      | some p =>
        obtain ⟨v, rs2⟩ := p
        rw [hrec] at h
        obtain ⟨hu, hl2⟩ : v = u ∧ a :: rs2 = l2 := by
          constructor <;> [exact congrArg Prod.fst (Option.some.inj h);
            exact congrArg Prod.snd (Option.some.inj h)]
        obtain ⟨pre, r, post, e1, e2, e3, e4, e5⟩ := ih hrec
        refine ⟨a :: pre, r, post, by simp [e1], by simp [← hl2, e2], by rw [← hu, e3], e4, ?_⟩
        intro x hx
        rcases List.mem_cons.mp hx with hx | hx
        · rw [hx]; exact eq_false_of_ne_true ha
        · exact e5 x hx

theorem find?_prefix_false {α : Type} {p : α → Bool} {pre : List α}
    (hpre : ∀ x ∈ pre, p x = false) {r : α} {post : List α} (hr : p r = true) :
    (pre ++ r :: post).find? p = some r := by
  induction pre with
  | nil => simp [List.find?_cons, hr]
  | cons a as ih =>
    have ha : p a = false := hpre a (List.mem_cons_self a as)
    rw [List.cons_append, List.find?_cons_of_neg _ (by simp [ha])]
    exact ih (fun x hx => hpre x (List.mem_cons_of_mem a hx))

/-! Lemma layer: the shared PATCH handler shape. -/

theorem patchFeedback_of_none {fid : Nat} {g : FeedbackRec → FeedbackRec} {s : Store}
    (h : s.feedback.find? (fun x => x.id == fid) = none) :
    patchFeedback fid g s = (.error .notFound, s) := by
  rw [patchFeedback, update_one_eq_none.mpr h]

theorem patchFeedback_fst_of_find? {fid : Nat} {g : FeedbackRec → FeedbackRec} {s : Store}
    {r : FeedbackRec} (h : s.feedback.find? (fun x => x.id == fid) = some r) :
    (patchFeedback fid g s).1 = .ok (g r) := by
  obtain ⟨l2, hl2⟩ := @update_one_of_find? fid g s.feedback r h
  rw [patchFeedback, hl2]

theorem patchFeedback_error_iff {fid : Nat} {g : FeedbackRec → FeedbackRec} {s : Store} :
    (patchFeedback fid g s).1 = .error .notFound ↔
      s.feedback.find? (fun x => x.id == fid) = none := by
  constructor
  · intro h
    cases hu : update_one fid g s.feedback with
    | none => exact update_one_eq_none.mp hu
    | some p =>
      obtain ⟨u, l2⟩ := p
      rw [patchFeedback, hu] at h
      simp at h
  · intro h
    rw [patchFeedback_of_none h]

theorem patchFeedback_snd_of_none {fid : Nat} {g : FeedbackRec → FeedbackRec} {s : Store}
    (h : s.feedback.find? (fun x => x.id == fid) = none) :
    (patchFeedback fid g s).2 = s := by
  rw [patchFeedback_of_none h]

theorem patchFeedback_map_id {fid : Nat} {g : FeedbackRec → FeedbackRec} {s : Store}
    (hg : ∀ x, (g x).id = x.id) :
    ((patchFeedback fid g s).2.feedback).map (fun x => x.id) =
      s.feedback.map (fun x => x.id) := by
  cases hu : update_one fid g s.feedback with
  | none => rw [patchFeedback, hu]
  | some p =>
    obtain ⟨u, l2⟩ := p
    rw [patchFeedback, hu]
    obtain ⟨pre, r, post, e1, e2, _, _, _⟩ := update_one_decomp hu
    simp only [e1, e2, List.map_append, List.map_cons, hg]

theorem patchFeedback_find?_self {fid : Nat} {g : FeedbackRec → FeedbackRec} {s : Store}
    {r : FeedbackRec} (h : s.feedback.find? (fun x => x.id == fid) = some r)
    (hg : ∀ x, (g x).id = x.id) :
    ((patchFeedback fid g s).2.feedback).find? (fun x => x.id == fid) = some (g r) := by
  obtain ⟨l2, hl2⟩ := @update_one_of_find? fid g s.feedback r h
  obtain ⟨pre, r0, post, e1, e2, e3, e4, e5⟩ := update_one_decomp hl2
  have hfind : s.feedback.find? (fun x => x.id == fid) = some r0 := by
    rw [e1]; exact find?_prefix_false e5 e4
  have hr0 : r0 = r := by
    rw [hfind] at h
    exact Option.some.inj h
  subst hr0
  rw [patchFeedback, hl2]
  show l2.find? (fun x => x.id == fid) = some (g r0)
  rw [e2]
  exact find?_prefix_false e5 (by rw [show (g r0).id = r0.id from hg r0]; exact e4)

theorem patchFeedback_untouched {fid : Nat} {g : FeedbackRec → FeedbackRec} {s : Store}
    {x : FeedbackRec} (hx : x ∈ s.feedback) (hne : (x.id == fid) = false) :
    x ∈ (patchFeedback fid g s).2.feedback := by
  cases hu : update_one fid g s.feedback with
  | none => rw [patchFeedback, hu]; exact hx
  | some p =>
    obtain ⟨u, l2⟩ := p
    rw [patchFeedback, hu]
    obtain ⟨pre, r, post, e1, e2, _, e4, _⟩ := update_one_decomp hu
    rw [e1] at hx
    rcases List.mem_append.mp hx with hm | hm
    · exact e2 ▸ List.mem_append.mpr (Or.inl hm)
    · rcases List.mem_cons.mp hm with hm | hm
      · exfalso
        rw [hm] at hne
        rw [hne] at e4
        exact Bool.false_ne_true e4
      · exact e2 ▸ List.mem_append.mpr (Or.inr (List.mem_cons_of_mem _ hm))

theorem patchFeedback_other_collections {fid : Nat} {g : FeedbackRec → FeedbackRec}
    {s : Store} :
    (patchFeedback fid g s).2.facilities = s.facilities ∧
      (patchFeedback fid g s).2.staffs = s.staffs ∧
      (patchFeedback fid g s).2.next_id = s.next_id := by
  cases hu : update_one fid g s.feedback with
  | none => rw [patchFeedback, hu]; exact ⟨rfl, rfl, rfl⟩
  | some p => obtain ⟨u, l2⟩ := p; rw [patchFeedback, hu]; exact ⟨rfl, rfl, rfl⟩

theorem patchFeedback_ok_doc {fid : Nat} {g : FeedbackRec → FeedbackRec} {s : Store}
    {doc : FeedbackRec} {s2 : Store} (h : patchFeedback fid g s = (.ok doc, s2)) :
    ∃ r, s.feedback.find? (fun x => x.id == fid) = some r ∧ doc = g r ∧
      s2 = (patchFeedback fid g s).2 := by
  cases hu : update_one fid g s.feedback with
  | none =>
    rw [patchFeedback, hu] at h
    exact absurd (congrArg Prod.fst h) (by simp)
  | some p =>
    obtain ⟨u, l2⟩ := p
    rw [patchFeedback, hu] at h
    obtain ⟨pre, r, post, e1, e2, e3, e4, e5⟩ := update_one_decomp hu
    have hfind : s.feedback.find? (fun x => x.id == fid) = some r := by
      rw [e1]; exact find?_prefix_false e5 e4
    refine ⟨r, hfind, ?_, ?_⟩
    · have h1 : Except.ok u = Except.ok doc := congrArg Prod.fst h
      rw [← Except.ok.inj h1, e3]
    · have h2 := congrArg Prod.snd h
      rw [patchFeedback, hu]
      exact h2.symm

theorem patchFeedback_err {fid : Nat} {g : FeedbackRec → FeedbackRec} {s : Store}
    {e : ApiError} {s2 : Store} (h : patchFeedback fid g s = (.error e, s2)) : s2 = s := by
  cases hu : update_one fid g s.feedback with
  | none =>
    rw [patchFeedback, hu] at h
    exact (congrArg Prod.snd h).symm
  | some p =>
    obtain ⟨u, l2⟩ := p
    rw [patchFeedback, hu] at h
    exact absurd (congrArg Prod.fst h) (by simp)

theorem patchFeedback_fst_staffs {fid : Nat} {g : FeedbackRec → FeedbackRec} {s : Store}
    {staffs2 : List StaffRec} :
    (patchFeedback fid g { s with staffs := staffs2 }).1 = (patchFeedback fid g s).1 := by
  cases hu : update_one fid g s.feedback with
  | none => simp [patchFeedback, hu]
  | some p => obtain ⟨u, l2⟩ := p; simp [patchFeedback, hu]

/-! Claim theorems. -/

/-- Claim C2: Resolve on any existing feedback record, regardless of its prior
status, applies the provided non-null fields as a partial update, forces
status = resolved, unconditionally overwrites resolved_at with the current
time on every call, and fails with NotFound exactly when no record with the
given feedback_id exists. -/
theorem C2_resolve_contract (now : Time) (fid : Nat) (p : ResolvePayload) (s : Store) :
    ((resolve_task now fid p s).1 = .error .notFound ↔
       s.feedback.find? (fun x => x.id == fid) = none) ∧
    (s.feedback.find? (fun x => x.id == fid) = none → (resolve_task now fid p s).2 = s) ∧
    (∀ r, s.feedback.find? (fun x => x.id == fid) = some r →
       (resolve_task now fid p s).1 = .ok (applyResolve now p r) ∧
       (applyResolve now p r).status = "resolved" ∧
       (applyResolve now p r).resolved_at = some now ∧
       (applyResolve now p r).updated_at = some now ∧
       (∀ v, p.after_photo_url = some v → (applyResolve now p r).after_photo_url = some v) ∧
       (p.after_photo_url = none → (applyResolve now p r).after_photo_url = r.after_photo_url) ∧
       (∀ v, p.staff_complete_lat = some v →
         (applyResolve now p r).staff_complete_lat = some v) ∧
       (p.staff_complete_lat = none →
         (applyResolve now p r).staff_complete_lat = r.staff_complete_lat) ∧
       (∀ v, p.staff_complete_lng = some v →
         (applyResolve now p r).staff_complete_lng = some v) ∧
       (p.staff_complete_lng = none →
         (applyResolve now p r).staff_complete_lng = r.staff_complete_lng) ∧
       (applyResolve now p r).id = r.id ∧
       (applyResolve now p r).facility_code = r.facility_code ∧
       (applyResolve now p r).rating = r.rating ∧
       (applyResolve now p r).comment = r.comment ∧
       (applyResolve now p r).photo_url = r.photo_url ∧
       (applyResolve now p r).assigned_to = r.assigned_to ∧
       (applyResolve now p r).before_photo_url = r.before_photo_url ∧
       (applyResolve now p r).started_at = r.started_at ∧
       (applyResolve now p r).created_at = r.created_at ∧
       ((resolve_task now fid p s).2.feedback).find? (fun x => x.id == fid) =
         some (applyResolve now p r)) := by
  refine ⟨patchFeedback_error_iff, fun h => patchFeedback_snd_of_none h, ?_⟩
  intro r hr
  refine ⟨patchFeedback_fst_of_find? hr, rfl, rfl, rfl, ?_, ?_, ?_, ?_, ?_, ?_,
    rfl, rfl, rfl, rfl, rfl, rfl, rfl, rfl, rfl,
    patchFeedback_find?_self hr (fun _ => rfl)⟩
  · intro v hv; simp [applyResolve, optSet, hv]
  · intro hv; simp [applyResolve, optSet, hv]
  · intro v hv; simp [applyResolve, optSet, hv]
  · intro hv; simp [applyResolve, optSet, hv]
  · intro v hv; simp [applyResolve, optSet, hv]
  · intro hv; simp [applyResolve, optSet, hv]

/-- Witness for C2 at a concrete input: a record that is still open with a
stale resolved_at is resolved at instant 9. -/
theorem C2_resolve_contract_witness :
    (resolve_task 9 0 ⟨none, none, none⟩
        { baseStore with
            feedback := [{ mkRec 0 "open" with resolved_at := some 5 }] }).1 =
      .ok (applyResolve 9 ⟨none, none, none⟩
        { mkRec 0 "open" with resolved_at := some 5 }) :=
  ((C2_resolve_contract 9 0 ⟨none, none, none⟩
      { baseStore with
          feedback := [{ mkRec 0 "open" with resolved_at := some 5 }] }).2.2
    { mkRec 0 "open" with resolved_at := some 5 } (by decide)).1

/-- Claim C3 (code bug shown at a concrete input): a record whose started_at
is already recorded as instant 1 is Started at instant 5, and the stored
started_at becomes 5 — the source's setdefault acts on the request's update
dict, which never carries started_at, so the stored value is overwritten. -/
theorem C3_start_overwrites_recorded_started_at :
    ({ mkRec 0 "in_progress" with started_at := some 1 } : FeedbackRec).started_at = some 1 ∧
    ((start_task 5 0 ⟨none, none, none⟩
        { baseStore with
            feedback := [{ mkRec 0 "in_progress" with started_at := some 1 }],
            next_id := 1 }).2.feedback.map (fun r => r.started_at)) = [some 5] :=
  ⟨rfl, rfl⟩

/-- Claim C4 (code bug shown at a concrete input): started_at, although
already set to instant 2, is overwritten to instant 9 by Start, so the
once-set-never-overwritten invariant fails for started_at under Start. -/
theorem C4_start_does_not_preserve_started_at :
    ({ mkRec 7 "in_progress" with started_at := some 2 } : FeedbackRec).started_at = some 2 ∧
    ((start_task 9 7 ⟨none, none, none⟩
        { baseStore with
            feedback := [{ mkRec 7 "in_progress" with started_at := some 2 }],
            next_id := 8 }).2.feedback.map (fun r => r.started_at)) = [some 9] :=
  ⟨rfl, rfl⟩

/-- Claim C6: for every rating outside 1..5 Submit fails with ValidationError
and the store — in particular the feedback collection — is left unchanged. -/
theorem C6_invalid_rating_rejected (now : Time) (p : FeedbackCreate) (s : Store)
    (h : p.rating < 1 ∨ 5 < p.rating) :
    submit_feedback now p s = (.error .validationError, s) ∧
    (submit_feedback now p s).2.feedback = s.feedback := by
  constructor
  · rw [submit_feedback, if_pos h]
  · rw [submit_feedback, if_pos h]

/-- Witness for C6 at a concrete input: rating 7. -/
theorem C6_invalid_rating_rejected_witness :
    submit_feedback 0
        { facility_code := "F1", rating := 7, comment := none, photo_url := none,
          user_lat := none, user_lng := none } baseStore =
      (.error .validationError, baseStore) ∧
    (submit_feedback 0
        { facility_code := "F1", rating := 7, comment := none, photo_url := none,
          user_lat := none, user_lng := none } baseStore).2.feedback =
      baseStore.feedback :=
  C6_invalid_rating_rejected 0
    { facility_code := "F1", rating := 7, comment := none, photo_url := none,
      user_lat := none, user_lng := none } baseStore (by decide)

/-- Claim C7: a Submit whose payload is well formed (rating in range, as the
pydantic model guarantees) but whose facility_code matches no facility fails
with NotFound and leaves the feedback collection without any new record. -/
theorem C7_unknown_facility_rejected (now : Time) (p : FeedbackCreate) (s : Store)
    (hr1 : 1 ≤ p.rating) (hr5 : p.rating ≤ 5)
    (hf : s.facilities.find? (fun f => f.code == p.facility_code) = none) :
    submit_feedback now p s = (.error .notFound, s) ∧
    (submit_feedback now p s).2.feedback = s.feedback := by
  have hnot : ¬(p.rating < 1 ∨ 5 < p.rating) := by
    push_neg
    exact ⟨hr1, hr5⟩
  constructor
  · rw [submit_feedback, if_neg hnot, hf]
  · rw [submit_feedback, if_neg hnot, hf]

/-- Witness for C7 at a concrete input: an empty facility collection. -/
theorem C7_unknown_facility_rejected_witness :
    submit_feedback 3
        { facility_code := "ZZ", rating := 4, comment := none, photo_url := none,
          user_lat := none, user_lng := none }
        { facilities := [], staffs := [], feedback := [], next_id := 0 } =
      (.error .notFound,
        { facilities := [], staffs := [], feedback := [], next_id := 0 }) ∧
    (submit_feedback 3
        { facility_code := "ZZ", rating := 4, comment := none, photo_url := none,
          user_lat := none, user_lng := none }
        { facilities := [], staffs := [], feedback := [], next_id := 0 }).2.feedback =
      ({ facilities := [], staffs := [], feedback := [], next_id := 0 } : Store).feedback :=
  C7_unknown_facility_rejected 3
    { facility_code := "ZZ", rating := 4, comment := none, photo_url := none,
      user_lat := none, user_lng := none }
    { facilities := [], staffs := [], feedback := [], next_id := 0 }
    (by decide) (by decide) (by decide)

/-- Claim C1 is refuted at a concrete input: a record created open and then
resolved is moved back to in_progress by a later Assign, so a sequence of the
defined operations does change a resolved record's status away from
resolved. -/
theorem C1_backward_transition_counterexample :
    (c1AfterSubmit.feedback.map (fun r => r.status)) = ["open"] ∧
    (c1AfterResolve.feedback.map (fun r => r.status)) = ["resolved"] ∧
    (c1AfterAssign.feedback.map (fun r => r.status)) = ["in_progress"] :=
  ⟨rfl, rfl, rfl⟩

/-- Claim C1 as amended: every record is created with status open and all
lifecycle fields unset; Assign and Start unconditionally set status to
in_progress and Resolve unconditionally sets it to resolved (there is no
prior-state check, so Assign or Start on a resolved record moves its status
back to in_progress); no operation deletes a record — a successful update
preserves the identity sequence of the collection, a successful Submit only
appends, and every failing call leaves the store untouched. -/
theorem C1_amended_lifecycle (now : Time) (s : Store) :
    (∀ p doc s2, submit_feedback now p s = (.ok doc, s2) →
       doc.status = "open" ∧ doc.assigned_to = none ∧ doc.started_at = none ∧
         doc.resolved_at = none ∧ s2.feedback = s.feedback ++ [doc]) ∧
    (∀ fid sid doc s2, assign_feedback now fid sid s = (.ok doc, s2) →
       doc.status = "in_progress" ∧
         s2.feedback.map (fun x => x.id) = s.feedback.map (fun x => x.id)) ∧
    (∀ fid p doc s2, start_task now fid p s = (.ok doc, s2) →
       doc.status = "in_progress" ∧
         s2.feedback.map (fun x => x.id) = s.feedback.map (fun x => x.id)) ∧
    (∀ fid p doc s2, resolve_task now fid p s = (.ok doc, s2) →
       doc.status = "resolved" ∧
         s2.feedback.map (fun x => x.id) = s.feedback.map (fun x => x.id)) ∧
    (∀ fid sid e s2, assign_feedback now fid sid s = (.error e, s2) → s2 = s) ∧
    (∀ fid p e s2, start_task now fid p s = (.error e, s2) → s2 = s) ∧
    (∀ fid p e s2, resolve_task now fid p s = (.error e, s2) → s2 = s) ∧
    (∀ p e s2, submit_feedback now p s = (.error e, s2) → s2 = s) := by
  refine ⟨?_, ?_, ?_, ?_, ?_, ?_, ?_, ?_⟩
  · intro p doc s2 h
    rw [submit_feedback] at h
    by_cases hrate : p.rating < 1 ∨ 5 < p.rating
    · rw [if_pos hrate] at h
      exact absurd (congrArg Prod.fst h) (by simp)
    · rw [if_neg hrate] at h
      cases hf : s.facilities.find? (fun f => f.code == p.facility_code) with
      | none =>
        rw [hf] at h
        exact absurd (congrArg Prod.fst h) (by simp)
      | some fac =>
        rw [hf] at h
        have h1 : Except.ok (newFeedback now s.next_id p) = Except.ok doc :=
          congrArg Prod.fst h
        have h2 : s.feedback ++ [newFeedback now s.next_id p] = s2.feedback :=
          congrArg (fun q : Except ApiError FeedbackRec × Store => q.2.feedback) h
        obtain rfl : doc = newFeedback now s.next_id p := (Except.ok.inj h1).symm
        exact ⟨rfl, rfl, rfl, rfl, h2.symm⟩
  · intro fid sid doc s2 h
    simp only [assign_feedback] at h
    obtain ⟨r, hfind, hdoc, hs2⟩ := patchFeedback_ok_doc h
    subst hdoc
    refine ⟨rfl, ?_⟩
    rw [hs2]
    exact patchFeedback_map_id (fun _ => rfl)
  · intro fid p doc s2 h
    simp only [start_task] at h
    obtain ⟨r, hfind, hdoc, hs2⟩ := patchFeedback_ok_doc h
    subst hdoc
    refine ⟨rfl, ?_⟩
    rw [hs2]
    exact patchFeedback_map_id (fun _ => rfl)
  · intro fid p doc s2 h
    simp only [resolve_task] at h
    obtain ⟨r, hfind, hdoc, hs2⟩ := patchFeedback_ok_doc h
    subst hdoc
    refine ⟨rfl, ?_⟩
    rw [hs2]
    exact patchFeedback_map_id (fun _ => rfl)
  · intro fid sid e s2 h
    simp only [assign_feedback] at h
    exact patchFeedback_err h
  · intro fid p e s2 h
    simp only [start_task] at h
    exact patchFeedback_err h
  · intro fid p e s2 h
    simp only [resolve_task] at h
    exact patchFeedback_err h
  · intro p e s2 h
    rw [submit_feedback] at h
    by_cases hrate : p.rating < 1 ∨ 5 < p.rating
    · rw [if_pos hrate] at h
      exact (congrArg Prod.snd h).symm
    · rw [if_neg hrate] at h
      cases hf : s.facilities.find? (fun f => f.code == p.facility_code) with
      | none =>
        rw [hf] at h
        exact (congrArg Prod.snd h).symm
      | some fac =>
        rw [hf] at h
        exact absurd (congrArg Prod.fst h) (by simp)

/-- Witness for the amended C1 at a concrete input: the Submit of the
concrete C1 run creates its record open with lifecycle fields unset and only
appends to the collection. -/
theorem C1_amended_lifecycle_witness :
    (newFeedback 0 0 c1Payload).status = "open" ∧
      (newFeedback 0 0 c1Payload).assigned_to = none ∧
      (newFeedback 0 0 c1Payload).started_at = none ∧
      (newFeedback 0 0 c1Payload).resolved_at = none ∧
      c1AfterSubmit.feedback = baseStore.feedback ++ [newFeedback 0 0 c1Payload] :=
  (C1_amended_lifecycle 0 baseStore).1 c1Payload (newFeedback 0 0 c1Payload)
    c1AfterSubmit rfl

/-- Claim C5: Assign on an existing record takes the staff id as-is (its
outcome does not depend on the staff collection at all), forces
status = in_progress, stamps started_at and updated_at with the current
time — so started_at is at or after the record's creation time whenever the
clock is monotone — and a second Assign overwrites started_at with the later
time; it fails with NotFound exactly when no record has the given id. -/
theorem C5_assign_contract (now : Time) (fid : Nat) (sid : String) (s : Store) :
    ((assign_feedback now fid sid s).1 = .error .notFound ↔
       s.feedback.find? (fun x => x.id == fid) = none) ∧
    (∀ staffs2, (assign_feedback now fid sid { s with staffs := staffs2 }).1 =
       (assign_feedback now fid sid s).1) ∧
    (∀ r, s.feedback.find? (fun x => x.id == fid) = some r →
       (assign_feedback now fid sid s).1 = .ok (applyAssign now sid r) ∧
       (applyAssign now sid r).assigned_to = some sid ∧
       (applyAssign now sid r).status = "in_progress" ∧
       (applyAssign now sid r).started_at = some now ∧
       (applyAssign now sid r).updated_at = some now ∧
       (applyAssign now sid r).created_at = r.created_at ∧
       (r.created_at ≤ now →
         ∃ t, (applyAssign now sid r).started_at = some t ∧ r.created_at ≤ t) ∧
       (∀ t2 sid2,
         (assign_feedback t2 fid sid2 (assign_feedback now fid sid s).2).1 =
           .ok (applyAssign t2 sid2 (applyAssign now sid r)) ∧
         (applyAssign t2 sid2 (applyAssign now sid r)).started_at = some t2)) := by
  refine ⟨patchFeedback_error_iff, fun staffs2 => patchFeedback_fst_staffs, ?_⟩
  intro r hr
  have hfind2 := @patchFeedback_find?_self fid (applyAssign now sid) s r hr (fun _ => rfl)
  refine ⟨patchFeedback_fst_of_find? hr, rfl, rfl, rfl, rfl, rfl, ?_, ?_⟩
  · intro hc
    exact ⟨now, rfl, hc⟩
  · intro t2 sid2
    exact ⟨patchFeedback_fst_of_find? hfind2, rfl⟩

/-- A truthy-or-omitted string filter constrains a plain string field exactly
as the conjunction semantics reads: every provided value must equal it. -/
theorem strClause_iff {q : Option String} {x : String} (hq : q ≠ some "") :
    (if strTruthy q then x == q.getD "" else true) = true ↔
      (∀ v, q = some v → x = v) := by
  cases q with
  | none => simp [strTruthy]
  | some v =>
    have hv : ¬(v = "") := fun hh => hq (by rw [hh])
    simp [strTruthy, hv]

/-- A truthy-or-omitted string filter on the optional assigned_to field
matches exactly the documents whose field holds the provided value. -/
theorem optClause_iff {q : Option String} {x : Option String} (hq : q ≠ some "") :
    (if strTruthy q then x == some (q.getD "") else true) = true ↔
      (∀ v, q = some v → x = some v) := by
  cases q with
  | none => simp [strTruthy]
  | some v =>
    have hv : ¬(v = "") := fun hh => hq (by rw [hh])
    simp [strTruthy, hv]

/-- For truthy-or-omitted filters the query dict built by list_feedback means
exactly the conjunction of the provided constraints. -/
theorem matchesQuery_iff {qs qf qa : Option String} {r : FeedbackRec}
    (hqs : qs ≠ some "") (hqf : qf ≠ some "") (hqa : qa ≠ some "") :
    matchesQuery qs qf qa r = true ↔
      ((∀ v, qs = some v → r.status = v) ∧
       (∀ v, qf = some v → r.facility_code = v) ∧
       (∀ v, qa = some v → r.assigned_to = some v)) := by
  rw [matchesQuery, Bool.and_eq_true, Bool.and_eq_true,
    strClause_iff hqs, strClause_iff hqf, optClause_iff hqa, and_assoc]

/-- The sort stage of list_feedback yields a list pairwise descending in
created_at. -/
theorem sortedDesc_pairwise (l : List FeedbackRec) :
    (l.mergeSort (fun a b => decide (b.created_at ≤ a.created_at))).Pairwise
      (fun a b => b.created_at ≤ a.created_at) := by
  have htrans : ∀ a b c : FeedbackRec, decide (b.created_at ≤ a.created_at) = true →
      decide (c.created_at ≤ b.created_at) = true →
      decide (c.created_at ≤ a.created_at) = true := by
    intro a b c h1 h2
    exact decide_eq_true (le_trans (of_decide_eq_true h2) (of_decide_eq_true h1))
  have htotal : ∀ a b : FeedbackRec,
      (decide (b.created_at ≤ a.created_at) || decide (a.created_at ≤ b.created_at)) =
        true := by
    intro a b
    rcases Nat.le_total b.created_at a.created_at with h | h <;> simp [h]
  exact (@List.sorted_mergeSort FeedbackRec
    (fun a b => decide (b.created_at ≤ a.created_at)) htrans htotal l).imp
    (fun hab => of_decide_eq_true hab)

/-- With a truthy limit, list_feedback is the descending sort of the
filtered collection truncated to that many entries. -/
theorem list_feedback_truthy (qs qf qa : Option String) (s : Store) {l : Int}
    (hl : l ≠ 0) :
    list_feedback qs qf qa (some l) s =
      ((s.feedback.filter (matchesQuery qs qf qa)).mergeSort
        (fun a b => decide (b.created_at ≤ a.created_at))).take l.natAbs := by
  have ht : intTruthy (some l) = true := by simp [intTruthy, hl]
  simp [list_feedback, ht]

/-- Claim C8: with each provided filter non-empty and a positive limit,
List returns only records of the store satisfying every provided filter,
newest first by creation time, never more than limit entries — exactly the
matching records whenever they fit within the limit — and the absent-limit
default 100 caps the result at 100. -/
theorem C8_list_contract (qs qf qa : Option String) (s : Store) (l : Int)
    (hqs : qs ≠ some "") (hqf : qf ≠ some "") (hqa : qa ≠ some "") (hl : 0 < l) :
    (∀ r ∈ list_feedback qs qf qa (some l) s,
       r ∈ s.feedback ∧
       (∀ v, qs = some v → r.status = v) ∧
       (∀ v, qf = some v → r.facility_code = v) ∧
       (∀ v, qa = some v → r.assigned_to = some v)) ∧
    (list_feedback qs qf qa (some l) s).length ≤ l.natAbs ∧
    (list_feedback qs qf qa (some l) s).Pairwise
      (fun a b => b.created_at ≤ a.created_at) ∧
    ((s.feedback.filter (matchesQuery qs qf qa)).length ≤ l.natAbs →
       ∀ r, r ∈ list_feedback qs qf qa (some l) s ↔
         (r ∈ s.feedback ∧
          (∀ v, qs = some v → r.status = v) ∧
          (∀ v, qf = some v → r.facility_code = v) ∧
          (∀ v, qa = some v → r.assigned_to = some v))) ∧
    (list_feedback qs qf qa (some 100) s).length ≤ 100 := by
  have hne : l ≠ 0 := by omega
  have hdef := list_feedback_truthy qs qf qa s hne
  refine ⟨?_, ?_, ?_, ?_, ?_⟩
  · intro r hr
    rw [hdef] at hr
    have hr2 : r ∈ (s.feedback.filter (matchesQuery qs qf qa)).mergeSort
        (fun a b => decide (b.created_at ≤ a.created_at)) :=
      (List.take_sublist _ _).subset hr
    have hr3 := List.mem_filter.mp (List.mem_mergeSort.mp hr2)
    obtain ⟨h1, h2, h3⟩ := (matchesQuery_iff hqs hqf hqa).mp hr3.2
    exact ⟨hr3.1, h1, h2, h3⟩
  · rw [hdef, List.length_take]
    exact min_le_left _ _
  · rw [hdef]
    exact List.Pairwise.sublist (List.take_sublist _ _) (sortedDesc_pairwise _)
  · intro hlen r
    rw [hdef, List.take_of_length_le (by rw [List.length_mergeSort]; exact hlen)]
    rw [List.mem_mergeSort, List.mem_filter, matchesQuery_iff hqs hqf hqa]
  · rw [list_feedback_truthy qs qf qa s (by omega : (100 : Int) ≠ 0), List.length_take]
    exact le_trans (min_le_left _ _) (le_refl 100)

/-- Witness for C8 at a concrete input: a store with one open and one
resolved record, filtered to open with limit 2. -/
theorem C8_list_contract_witness :
    (list_feedback (some "open") none none (some 2)
        { baseStore with feedback := [mkRec 0 "open", mkRec 1 "resolved"],
                         next_id := 2 }).length ≤ (2 : Int).natAbs :=
  (C8_list_contract (some "open") none none
      { baseStore with feedback := [mkRec 0 "open", mkRec 1 "resolved"], next_id := 2 }
      2 (by decide) (by decide) (by decide) (by decide)).2.1

/-- Witness for C5 at a concrete input: the staff id "ghost" is not in the
(empty) staff collection, yet Assign succeeds. -/
theorem C5_assign_contract_witness :
    (assign_feedback 4 0 "ghost"
        { baseStore with feedback := [mkRec 0 "open"], next_id := 1 }).1 =
      .ok (applyAssign 4 "ghost" (mkRec 0 "open")) :=
  ((C5_assign_contract 4 0 "ghost"
      { baseStore with feedback := [mkRec 0 "open"], next_id := 1 }).2.2
    (mkRec 0 "open") (by decide)).1

/-- The two filter stages counting one assignee coincide with the single
filter the claim speaks about: resolved records assigned to that key. -/
theorem leaderboard_count_eq (s : Store) (k : String) :
    ((s.feedback.filter resolvedAssignedFilter).filter
        (fun r => r.assigned_to == some k)).length =
      (s.feedback.filter
        (fun r => r.status == "resolved" && r.assigned_to == some k)).length := by
  rw [List.filter_filter]
  have hpt : ∀ x ∈ s.feedback,
      ((x.assigned_to == some k) && resolvedAssignedFilter x) =
        (x.status == "resolved" && x.assigned_to == some k) := by
    intro x _
    cases hx : x.assigned_to == some k with
    | false => simp [resolvedAssignedFilter, hx]
    | true =>
      have hxa : x.assigned_to = some k := by simpa using hx
      simp [resolvedAssignedFilter, hx, hxa]
  rw [List.filter_congr hpt]

/-- A key appears among the distinct group keys exactly when some resolved
record is assigned to it. -/
theorem mem_leaderboardKeys {s : Store} {k : String} :
    k ∈ leaderboardKeys s ↔
      ∃ r ∈ s.feedback, r.status = "resolved" ∧ r.assigned_to = some k := by
  rw [leaderboardKeys, List.mem_dedup, List.mem_filterMap]
  constructor
  · rintro ⟨r, hr, hk⟩
    have hm := List.mem_filter.mp hr
    refine ⟨r, hm.1, ?_, hk⟩
    have hm2 := hm.2
    simp only [resolvedAssignedFilter, Bool.and_eq_true] at hm2
    simpa using hm2.1
  · rintro ⟨r, hr, hst, hk⟩
    exact ⟨r, List.mem_filter.mpr ⟨hr, by simp [resolvedAssignedFilter, hst, hk]⟩, hk⟩

/-- Claim C9: the leaderboard holds at most ten rows, ordered descending by
resolved count; each row corresponds to an assignee of at least one resolved
record (a resolved record with no assignee contributes nowhere), its count
is the number of resolved records assigned to that assignee, and its name is
the staff lookup result — null when the staff record is missing, the row
kept; and whenever at most ten distinct assignees exist, every assignee of a
resolved record has a row. -/
theorem C9_leaderboard_contract (s : Store) :
    (leaderboard s).length ≤ 10 ∧
    ((leaderboard s).map (fun e => e.resolved_count)).Pairwise (fun a b => b ≤ a) ∧
    (∀ e ∈ leaderboard s,
       (∃ r ∈ s.feedback, r.status = "resolved" ∧ r.assigned_to = some e.staff_id) ∧
       e.resolved_count = (s.feedback.filter
         (fun r => r.status == "resolved" && r.assigned_to == some e.staff_id)).length ∧
       0 < e.resolved_count ∧
       e.staff_name = (s.staffs.find? (fun st => st.id == e.staff_id)).map
         (fun st => st.name)) ∧
    ((leaderboardKeys s).length ≤ 10 →
       ∀ k, (∃ r ∈ s.feedback, r.status = "resolved" ∧ r.assigned_to = some k) →
         ∃ e ∈ leaderboard s, e.staff_id = k) := by
  have hsorted : (leaderboardSorted s).Pairwise (fun a b : String × Nat => b.2 ≤ a.2) := by
    have htrans : ∀ a b c : String × Nat, decide (b.2 ≤ a.2) = true →
        decide (c.2 ≤ b.2) = true → decide (c.2 ≤ a.2) = true := by
      intro a b c h1 h2
      exact decide_eq_true (le_trans (of_decide_eq_true h2) (of_decide_eq_true h1))
    have htotal : ∀ a b : String × Nat,
        (decide (b.2 ≤ a.2) || decide (a.2 ≤ b.2)) = true := by
      intro a b
      rcases Nat.le_total b.2 a.2 with h | h <;> simp [h]
    exact (@List.sorted_mergeSort (String × Nat) (fun a b => decide (b.2 ≤ a.2))
      htrans htotal (leaderboardGroups s)).imp (fun hab => of_decide_eq_true hab)
  refine ⟨?_, ?_, ?_, ?_⟩
  · rw [leaderboard, List.length_map, List.length_take]
    exact min_le_left _ _
  · rw [leaderboard, List.map_map]
    exact List.Pairwise.map _ (fun a b hab => hab)
      (List.Pairwise.sublist (List.take_sublist _ _) hsorted)
  · intro e he
    rw [leaderboard] at he
    obtain ⟨g, hg, hge⟩ := List.mem_map.mp he
    have hg2 : g ∈ leaderboardSorted s := (List.take_sublist _ _).subset hg
    have hg3 : g ∈ leaderboardGroups s :=
      ((List.mergeSort_perm (leaderboardGroups s) _).mem_iff).mp hg2
    obtain ⟨k, hk, hkg⟩ := List.mem_map.mp hg3
    obtain ⟨r, hr, hst, hasg⟩ := mem_leaderboardKeys.mp hk
    subst hge
    subst hkg
    refine ⟨⟨r, hr, hst, hasg⟩, leaderboard_count_eq s k, ?_, rfl⟩
    have hmem : r ∈ s.feedback.filter
        (fun x => x.status == "resolved" && x.assigned_to == some k) :=
      List.mem_filter.mpr ⟨hr, by simp [hst, hasg]⟩
    show 0 < ((s.feedback.filter resolvedAssignedFilter).filter
        (fun x => x.assigned_to == some k)).length
    rw [leaderboard_count_eq s k]
    exact List.length_pos.mpr (List.ne_nil_of_mem hmem)
  · intro hlen k hk
    have hkk : k ∈ leaderboardKeys s := mem_leaderboardKeys.mpr hk
    have hgmem : (k, ((s.feedback.filter resolvedAssignedFilter).filter
        (fun r => r.assigned_to == some k)).length) ∈ leaderboardGroups s :=
      List.mem_map.mpr ⟨k, hkk, rfl⟩
    have hsmem := ((List.mergeSort_perm (leaderboardGroups s)
      (fun a b => decide (b.2 ≤ a.2))).mem_iff).mpr hgmem
    have hslen : (leaderboardSorted s).length ≤ 10 := by
      rw [leaderboardSorted, List.length_mergeSort, leaderboardGroups, List.length_map]
      exact hlen
    have htake : (leaderboardSorted s).take 10 = leaderboardSorted s :=
      List.take_of_length_le hslen
    refine ⟨{ staff_id := k,
              resolved_count := ((s.feedback.filter resolvedAssignedFilter).filter
                (fun r => r.assigned_to == some k)).length,
              staff_name := (s.staffs.find? (fun st => st.id == k)).map
                (fun st => st.name) }, ?_, rfl⟩
    rw [leaderboard, htake]
    exact List.mem_map.mpr ⟨_, hsmem, rfl⟩

/-- Witness for C9 at a concrete input: staff "A" has resolved records in
c9Store, at most ten distinct assignees exist, so the leaderboard carries a
row for "A". -/
theorem C9_leaderboard_contract_witness :
    ∃ e ∈ leaderboard c9Store, e.staff_id = "A" :=
  (C9_leaderboard_contract c9Store).2.2.2 (by decide) "A"
    ⟨{ mkRec 0 "resolved" with assigned_to := some "A" }, by decide, rfl, rfl⟩

/-- Claim C10: limit 0 — like the falsy None — disables truncation and
returns every matching record rather than capping at 100, and a filter
passed as the empty string imposes no constraint, exactly like an omitted
filter. -/
theorem C10_falsy_limit_and_empty_filter (qs qf qa : Option String) (s : Store) :
    (list_feedback qs qf qa (some 0) s).length =
      (s.feedback.filter (matchesQuery qs qf qa)).length ∧
    (∀ r ∈ s.feedback, matchesQuery qs qf qa r = true →
       r ∈ list_feedback qs qf qa (some 0) s) ∧
    list_feedback qs qf qa (some 0) s = list_feedback qs qf qa none s ∧
    (∀ lim, list_feedback (some "") qf qa lim s = list_feedback none qf qa lim s) ∧
    (∀ lim, list_feedback qs (some "") qa lim s = list_feedback qs none qa lim s) ∧
    (∀ lim, list_feedback qs qf (some "") lim s = list_feedback qs qf none lim s) := by
  refine ⟨?_, ?_, rfl, fun lim => rfl, fun lim => rfl, fun lim => rfl⟩
  · show ((s.feedback.filter (matchesQuery qs qf qa)).mergeSort
      (fun a b => decide (b.created_at ≤ a.created_at))).length = _
    exact List.length_mergeSort _
  · intro r hr hm
    show r ∈ (s.feedback.filter (matchesQuery qs qf qa)).mergeSort
      (fun a b => decide (b.created_at ≤ a.created_at))
    exact List.mem_mergeSort.mpr (List.mem_filter.mpr ⟨hr, hm⟩)

/-- Witness for C10 at a concrete input: with limit 0 the single matching
record is returned. -/
theorem C10_falsy_limit_and_empty_filter_witness :
    mkRec 0 "open" ∈ list_feedback none none none (some 0)
      { baseStore with feedback := [mkRec 0 "open"], next_id := 1 } :=
  (C10_falsy_limit_and_empty_filter none none none
      { baseStore with feedback := [mkRec 0 "open"], next_id := 1 }).2.1
    (mkRec 0 "open") (by decide) (by decide)
